import Mathlib

/-!
Verification development for the speckle viewer's streaming object-graph
loader/converter pipeline.

The definitions below are a shallow embedding of the JavaScript source:

* `src/packages/viewer/src/modules/Converter.js` — `traverseAndConvert`,
  `dechunk`, `resolveReference`, `getSpeckleType`, `BrepToBufferGeometry`,
  `MeshToBufferGeometry`;
* `ViewerObjectLoader` (constructor URL validation, `load` progress loop).

JavaScript dynamic values are modelled by the inductive type `JSVal`
(numbers as exact rationals), thrown exceptions by `Except JSErr`, and the
content-addressable store by a function `String → Option JSVal` (a point
lookup by content id; `none` models a failed store lookup, which the source
lets propagate).  Asynchrony is collapsed: the viewer runs on a single
cooperative event loop, and the set of conversion-callback invocations
produced by a traversal does not depend on the interleaving, so
`traverseAndConvert` is embedded as a fuel-indexed pure function returning
its own completion status together with the list of callback invocations
(its own and those of the fire-and-forget child tasks it spawns).
-/

namespace Speckle

/-- A JavaScript runtime value.  `num` carries an exact rational (the claims
under study never depend on binary floating point rounding); `nan` is the
IEEE NaN produced e.g. by multiplying a non-numeric value. -/
inductive JSVal where
  | num : ℚ → JSVal
  | nan : JSVal
  | str : String → JSVal
  | bool : Bool → JSVal
  | null : JSVal
  | undefined : JSVal
  | arr : List JSVal → JSVal
  | obj : List (String × JSVal) → JSVal

/-- A thrown JavaScript exception: a `TypeError` (e.g. property access on
`null`/`undefined`, calling a missing method), an explicit `new Error(msg)`,
or a failed store lookup (unknown id / transport failure), which the source
lets propagate out of `objectLoader.getObject`. -/
inductive JSErr where
  | typeError : String → JSErr
  | jsError : String → JSErr
  | storeError : String → JSErr

/-- JavaScript truthiness. -/
def truthy : JSVal → Bool
  | .num q => decide (q ≠ 0)
  | .nan => false
  | .str s => decide (s ≠ "")
  | .bool b => b
  | .null => false
  | .undefined => false
  | .arr _ => true
  | .obj _ => true

/-- The JavaScript `typeof` operator (note `typeof null === "object"`). -/
def jsTypeof : JSVal → String
  | .num _ => "number"
  | .nan => "number"
  | .str _ => "string"
  | .bool _ => "boolean"
  | .null => "object"
  | .undefined => "undefined"
  | .arr _ => "object"
  | .obj _ => "object"

/-- First-match association-list lookup, the field store of a `JSVal.obj`. -/
def lookupField : List (String × JSVal) → String → Option JSVal
  | [], _ => none
  | (k', v) :: rest, k => if k' = k then some v else lookupField rest k

/-- Property read on a value that is not `null`/`undefined`: a missing
property reads as `undefined`; `length` is materialized on arrays and
strings (the only length reads the source performs). -/
def safeField : JSVal → String → JSVal
  | .obj fs, k => (lookupField fs k).getD .undefined
  | .arr l, k => if k = "length" then .num l.length else .undefined
  | .str s, k => if k = "length" then .num s.length else .undefined
  | _, _ => .undefined

/-- Property read `v[k]`, throwing a `TypeError` on `null`/`undefined` as
JavaScript does. -/
def getField (v : JSVal) (k : String) : Except JSErr JSVal :=
  match v with
  | .null => .error (.typeError ("Cannot read properties of null (reading " ++ k ++ ")"))
  | .undefined => .error (.typeError ("Cannot read properties of undefined (reading " ++ k ++ ")"))
  | _ => .ok (safeField v k)

/-- Numeric index read `v[i]`: arrays index their elements (out of range
reads as `undefined`), strings index characters, plain objects look up the
decimal key, `null`/`undefined` throw. -/
def jsIndex (v : JSVal) (i : Nat) : Except JSErr JSVal :=
  match v with
  | .null => .error (.typeError "Cannot read properties of null (reading index)")
  | .undefined => .error (.typeError "Cannot read properties of undefined (reading index)")
  | .arr l => .ok (l.getD i .undefined)
  | .str s =>
    .ok (match s.data.get? i with
         | some c => .str (String.mk [c])
         | none => .undefined)
  | .obj fs => .ok ((lookupField fs (toString i)).getD .undefined)
  | _ => .ok .undefined

/-- Rendering of a value inside a template literal (used only in the face
decoder's error message). -/
def jsDisplay : JSVal → String
  | .num q => toString q
  | .nan => "NaN"
  | .str s => s
  | .bool b => toString b
  | .null => "null"
  | .undefined => "undefined"
  | .arr _ => "[array]"
  | .obj _ => "[object Object]"

/-- Split of a character list at every occurrence of the separator. -/
def splitChars (sep : Char) : List Char → List (List Char)
  | [] => [[]]
  | c :: t =>
    match splitChars sep t with
    | [] => if c = sep then [[], []] else [[c]]
    | seg :: segs => if c = sep then [] :: seg :: segs else (c :: seg) :: segs

/-- JavaScript `s.split( sep )` with a one-character separator (the source
splits on `'/'` and `'.'`). -/
def jsSplit (s : String) (sep : Char) : List String :=
  (splitChars sep s.data).map (fun l => String.mk l)

/-- Strict equality test `v === q` against a number literal. -/
def jsStrictEqNum (v : JSVal) (q : ℚ) : Bool :=
  match v with
  | .num r => decide (r = q)
  | _ => false

/-- Deletion `delete v[k]` of an own property; a no-op on non-objects as in
JavaScript. -/
def deleteField : JSVal → String → JSVal
  | .obj fs, k => .obj (fs.filter (fun p => p.fst ≠ k))
  | v, _ => v

/-- Iterated `delete`, one statement per key. -/
def deleteFields (v : JSVal) (ks : List String) : JSVal := ks.foldl deleteField v

/-- Whether a value has the given own property (used only to state the
metadata-stripping claims). -/
def hasOwnField : JSVal → String → Bool
  | .obj fs, k => (lookupField fs k).isSome
  | _, _ => false

/-- The store client's point lookup `objectLoader.getObject(id)`: a content
id that is not a string or is unknown to the store fails, and the failure
propagates (spec §7, store lookup failure). -/
def getObject (store : String → Option JSVal) (v : JSVal) : Except JSErr JSVal :=
  match v with
  | .str s =>
    match store s with
    | some o => .ok o
    | none => .error (.storeError s)
  | _ => .error (.storeError "invalid object id")

/-- Converter.js lines 87-91:
`if ( obj.referencedId ) return await this.objectLoader.getObject( obj.referencedId ) else return obj`. -/
def resolveReference (store : String → Option JSVal) (v : JSVal) : Except JSErr JSVal :=
  match getField v "referencedId" with
  | .error e => .error e
  | .ok rid => if truthy rid then getObject store rid else .ok v

/-- The spread `...real.data` of Converter.js line 77: arrays spread their
elements, strings their characters, anything else is not iterable. -/
def spreadItems : JSVal → Except JSErr (List JSVal)
  | .arr l => .ok l
  | .str s => .ok (s.data.map (fun c => .str (String.mk [c])))
  | _ => .error (.typeError "value is not iterable")

/-- Converter.js lines 75-78, the body of `dechunk`'s `for..of` loop:
each element's `referencedId` is read (throwing on `null`/`undefined`
elements), the store is consulted, and the payload's `data` is spread onto
the accumulator, strictly in element order. -/
def dechunkLoop (store : String → Option JSVal) : List JSVal → Except JSErr (List JSVal)
  | [] => .ok []
  | ref :: rest =>
    match getField ref "referencedId" with
    | .error e => .error e
    | .ok rid =>
    match getObject store rid with
    | .error e => .error e
    | .ok real =>
    match getField real "data" with
    | .error e => .error e
    | .ok d =>
    match spreadItems d with
    | .error e => .error e
    | .ok items =>
    match dechunkLoop store rest with
    | .error e => .error e
    | .ok tail => .ok (items ++ tail)

/-- Converter.js lines 70-80:
`if ( !arr[0].referencedId ) return arr` — note that on an empty array
`arr[0]` is `undefined` and the `referencedId` read throws a `TypeError` —
otherwise resolve every element through the store in order and return the
concatenation of the payloads.  `for..of` iterates arrays and strings; a
string can never reach the loop (its first element is a character whose
`referencedId` reads as `undefined`), and any other value is not iterable. -/
def dechunk (store : String → Option JSVal) (v : JSVal) : Except JSErr JSVal :=
  match jsIndex v 0 with
  | .error e => .error e
  | .ok first =>
  match getField first "referencedId" with
  | .error e => .error e
  | .ok rid =>
    if truthy rid then
      match v with
      | .arr l =>
        match dechunkLoop store l with
        | .error e => .error e
        | .ok flat => .ok (.arr flat)
      | _ => .error (.typeError "value is not iterable")
    else .ok v

/-- Last dot-separated segment: `s.split( '.' ).reverse()[0]` of
Converter.js lines 101/103. -/
def lastDotSegment (s : String) : String := (jsSplit s '.').reverse.headD s

/-- The `speckle_type`-to-tag computation shared by both branches of
`getSpeckleType`: a truthy `speckle_type` must be a string (otherwise
`.split` throws) and contributes its last dot-segment, else the tag is the
generic `"Base"`. -/
def speckleTypeOf (base : JSVal) : Except JSErr String :=
  match getField base "speckle_type" with
  | .error e => .error e
  | .ok st =>
    if truthy st then
      match st with
      | .str s => .ok (lastDotSegment s)
      | _ => .error (.typeError "speckle type split is not a function")
    else .ok "Base"

/-- Converter.js lines 98-105: the type tag comes from `obj.data.speckle_type`
when `obj.data` is truthy and from `obj.speckle_type` otherwise, defaulting
to `"Base"`; reading a property of a `null` node throws. -/
def getSpeckleType (v : JSVal) : Except JSErr String :=
  match getField v "data" with
  | .error e => .error e
  | .ok d => if truthy d then speckleTypeOf d else speckleTypeOf v

/-- Converter.js line 41: `this[`tag`ToBufferGeometry]` is a function
exactly for the two converters the class defines, `Mesh` and `Brep`
(the other candidates are commented-out TODOs in the source). -/
def hasConverter (t : String) : Bool := t = "Mesh" || t = "Brep"

/-- The geometry buffer assembled by `MeshToBufferGeometry`: the index
sequence passed to `setIndex` (triangles are consecutive triples) and the
value handed to the `position` attribute.  The derived vertex normals and
bounding sphere of lines 163-165 are pure functions of these two and are
not modelled (no claim mentions them). -/
structure BufferGeometry where
  index : List JSVal
  position : JSVal

/-- Modelled from the spec: `ObjectWrapper` (imported by Converter.js from
`./ObjectWrapper`, a file not present under `src/`) is the Wrapped Result —
the pairing of a geometry buffer with the residual metadata of the source
object. -/
structure ObjectWrapper where
  bufferGeometry : BufferGeometry
  meta : JSVal

/-- Converter.js lines 146-156, the face-decoding `while` loop, expressed as
recursion on the unread suffix of the face buffer.  Cursor arithmetic: all
reads of an iteration are at offsets `k .. k+4`, and the cursor then jumps
past every value read, so the loop over `(faces, k)` equals this recursion
over `faces.drop k`.  Reads past the end of the buffer yield `undefined`
(which is pushed verbatim) and the truncated iteration is the last one, as
in the source. -/
def decodeFacesGo : List JSVal → Except JSErr (List JSVal)
  | [] => .ok []
  | f :: rest =>
    if jsStrictEqNum f 1 then
      match rest with
      | a :: b :: c :: d :: rest' =>
        (decodeFacesGo rest').map (fun t => a :: b :: c :: a :: c :: d :: t)
      | [a, b, c] => .ok [a, b, c, a, c, .undefined]
      | [a, b] => .ok [a, b, .undefined, a, .undefined, .undefined]
      | [a] => .ok [a, .undefined, .undefined, a, .undefined, .undefined]
      | [] => .ok [.undefined, .undefined, .undefined, .undefined, .undefined, .undefined]
    else if jsStrictEqNum f 0 then
      match rest with
      | a :: b :: c :: rest' =>
        (decodeFacesGo rest').map (fun t => a :: b :: c :: t)
      | [a, b] => .ok [a, b, .undefined]
      | [a] => .ok [a, .undefined, .undefined]
      | [] => .ok [.undefined, .undefined, .undefined]
    else .error (.jsError ("Mesh type not supported. Face topology indicator: " ++ jsDisplay f))

/-- The face-decoding loop applied to the dechunked `faces` value: an array
runs the loop; a non-empty string enters the loop and throws on its first
character (a character is strictly equal to neither `0` nor `1`); any other
value has an `undefined` `length`, so `k < faces.length` is false at once
and no indices are produced. -/
def decodeFacesVal : JSVal → Except JSErr (List JSVal)
  | .arr l => decodeFacesGo l
  | .str s =>
    match s.data with
    | [] => .ok []
    | c :: _ =>
      .error (.jsError ("Mesh type not supported. Face topology indicator: " ++ String.mk [c]))
  | _ => .ok []

/-- JavaScript numeric multiplication `v * factor` as used on vertex
entries: numbers multiply exactly, `null` coerces to `0` and booleans to
`0`/`1`; other coercions (strings, objects) are modelled as NaN. -/
def jsMulNum (v : JSVal) (factor : ℚ) : JSVal :=
  match v with
  | .num q => .num (q * factor)
  | .null => .num (0 * factor)
  | .bool b => .num ((if b then 1 else 0) * factor)
  | _ => .nan

/-- Converter.js line 161: the value handed to the position attribute is
`conversionFactor === 1 ? vertices : vertices.map( v => v * conversionFactor )`;
when the factor is exactly 1 the multiply is skipped and the dechunked
vertices value is passed through unchanged, otherwise `.map` requires an
array (a `TypeError` on anything else). -/
def scalePositions (factor : ℚ) (vertices : JSVal) : Except JSErr JSVal :=
  if factor = 1 then .ok vertices
  else
    match vertices with
    | .arr l => .ok (.arr (l.map (fun v => jsMulNum v factor)))
    | _ => .error (.typeError "vertices map is not a function")

/-- Converter.js lines 136-171, `MeshToBufferGeometry`.  The unit
conversion-factor table (`getConversionFactor` from `./Units`, a file not
present under `src/`) is taken as a parameter `cf`.  A falsy argument
returns `undefined` (`none`).  Vertex and face buffers are dechunked in
source order, faces are decoded, positions are scaled, and the metadata is
the source object with its `vertices` and `faces` fields deleted
(lines 167-170 mutate the object in place; `meshConvertAt` below exposes
that aliasing). -/
def MeshToBufferGeometry (store : String → Option JSVal) (cf : JSVal → ℚ)
    (objv : JSVal) : Except JSErr (Option ObjectWrapper) :=
  if ¬ truthy objv then .ok none
  else
    let factor := cf (safeField objv "units")
    match dechunk store (safeField objv "vertices") with
    | .error e => .error e
    | .ok vertices =>
    match dechunk store (safeField objv "faces") with
    | .error e => .error e
    | .ok faces =>
    match decodeFacesVal faces with
    | .error e => .error e
    | .ok indices =>
    match scalePositions factor vertices with
    | .error e => .error e
    | .ok position =>
      .ok (some { bufferGeometry := { index := indices, position := position },
                  meta := deleteField (deleteField objv "vertices") "faces" })

/-- The ten boundary-representation fields deleted by Converter.js
lines 122-131. -/
def brepStripFields : List String :=
  ["displayMesh", "displayValue", "Edges", "Faces", "Loops", "Trims",
   "Curve2D", "Curve3D", "Surfaces", "Vertices"]

/-- Converter.js lines 118-134, `BrepToBufferGeometry`.  A falsy argument
returns `undefined`.  Otherwise `obj.displayValue || obj.displayMesh` is
resolved — when both are absent this is `resolveReference( undefined )`,
whose `referencedId` read throws a `TypeError` — and run through the Mesh
converter; destructuring `bufferGeometry` out of an `undefined` Mesh result
also throws.  The metadata is the source object with the ten heavy fields
deleted in place. -/
def BrepToBufferGeometry (store : String → Option JSVal) (cf : JSVal → ℚ)
    (objv : JSVal) : Except JSErr (Option ObjectWrapper) :=
  if ¬ truthy objv then .ok none
  else
    let disp :=
      if truthy (safeField objv "displayValue") then safeField objv "displayValue"
      else safeField objv "displayMesh"
    match resolveReference store disp with
    | .error e => .error e
    | .ok resolved =>
    match MeshToBufferGeometry store cf resolved with
    | .error e => .error e
    | .ok none => .error (.typeError "Cannot destructure bufferGeometry of undefined")
    | .ok (some w) =>
      .ok (some { bufferGeometry := w.bufferGeometry,
                  meta := deleteFields objv brepStripFields })

/-- Converter.js line 42 argument: `obj.data || obj`. -/
def dataOrSelf (v : JSVal) : JSVal :=
  if truthy (safeField v "data") then safeField v "data" else v

/-- Dispatch to the registered converter for a tag with `hasConverter`. -/
def converterFor (store : String → Option JSVal) (cf : JSVal → ℚ)
    (t : String) (arg : JSVal) : Except JSErr (Option ObjectWrapper) :=
  if t = "Mesh" then MeshToBufferGeometry store cf arg
  else BrepToBufferGeometry store cf arg

/-- The values visited by `for ( let prop in obj.data )` of Converter.js
lines 47-49: enumerable own properties of an object, indices of an array or
a string (each index of a string reading a one-character string), nothing
for any other value. -/
def forInValues : JSVal → List JSVal
  | .obj fs => fs.map (fun p => p.snd)
  | .arr l => l
  | .str s => s.data.map (fun c => .str (String.mk [c]))
  | _ => []

/-- Converter.js lines 25-50, `traverseAndConvert`, as a fuel-indexed pure
function.  The result pairs this call's own completion (`.error` when the
call's promise rejects) with the list of conversion-callback invocations it
and the fire-and-forget child tasks it spawns produce; a rejected child is
an unhandled rejection in the source and contributes no invocations, while
children spawned before a parent's rejection still run (so `arrCbs` is kept
on the error paths).  A callback invocation carries the converter's result,
which is `none` when the converter returned `undefined` (the source invokes
`callback` with it regardless).  Fuel only bounds the recursion depth of
the embedding; every claim is stated with enough fuel for the step it
describes. -/
def tacStep (store : String → Option JSVal) (cf : JSVal → ℚ)
    (rec : JSVal → Except JSErr Unit × List (Option ObjectWrapper))
    (v : JSVal) : Except JSErr Unit × List (Option ObjectWrapper) :=
  if jsTypeof v ≠ "object" then (.ok (), [])
  else
    match resolveReference store v with
    | .error e => (.error e, [])
    | .ok v2 =>
      let arrCbs : List (Option ObjectWrapper) :=
        match v2 with
        | .arr l => (l.map (fun e => (rec e).snd)).flatten
        | _ => []
      match getSpeckleType v2 with
      | .error e => (.error e, arrCbs)
      | .ok t =>
        if hasConverter t then
          match converterFor store cf t (dataOrSelf v2) with
          | .error e => (.error e, arrCbs)
          | .ok r => (.ok (), arrCbs ++ [r])
        else
          (.ok (),
           arrCbs ++
             ((forInValues (safeField v2 "data")).map (fun e => (rec e).snd)).flatten)

/-- The fuel-indexed traversal: one `tacStep` per fuel unit, the child tasks
running at the next-smaller fuel. -/
def traverseAndConvert (store : String → Option JSVal) (cf : JSVal → ℚ) :
    Nat → JSVal → Except JSErr Unit × List (Option ObjectWrapper)
  | 0, _ => (.error (.jsError "out of fuel"), [])
  | fuel + 1, v => tacStep store cf (traverseAndConvert store cf fuel) v

/-- The result of a heap-bearing converter call: the wrapper's metadata is a
reference to (the address of) the source object itself, as in the source,
where `new ObjectWrapper( buffer, obj )` stores the very `obj` that was just
mutated. -/
structure HeapWrapper where
  bufferGeometry : BufferGeometry
  metaAddr : Nat

/-- `MeshToBufferGeometry` with JavaScript reference semantics for its
argument made explicit: the argument is an address `a` into a heap of
objects, the `delete obj.vertices; delete obj.faces` of lines 167-170
update the object stored at `a` in place (every other address is left
untouched), and the returned wrapper's metadata is the address `a` itself. -/
def meshConvertAt (store : String → Option JSVal) (cf : JSVal → ℚ)
    (H : Nat → JSVal) (a : Nat) :
    Except JSErr (Option HeapWrapper × (Nat → JSVal)) :=
  match MeshToBufferGeometry store cf (H a) with
  | .error e => .error e
  | .ok none => .ok (none, H)
  | .ok (some w) =>
    .ok (some { bufferGeometry := w.bufferGeometry, metaAddr := a },
         fun b => if b = a then w.meta else H b)

/-- `BrepToBufferGeometry` with reference semantics for its argument, as in
`meshConvertAt`: the ten deletes of lines 122-131 update the object stored
at `a` in place and the wrapper's metadata is the address `a`. -/
def brepConvertAt (store : String → Option JSVal) (cf : JSVal → ℚ)
    (H : Nat → JSVal) (a : Nat) :
    Except JSErr (Option HeapWrapper × (Nat → JSVal)) :=
  match BrepToBufferGeometry store cf (H a) with
  | .error e => .error e
  | .ok none => .ok (none, H)
  | .ok (some w) =>
    .ok (some { bufferGeometry := w.bufferGeometry, metaAddr := a },
         fun b => if b = a then w.meta else H b)

/-- Modelled from the spec: the server-side `chunk` operation is not part of
the inspected source; the spec says it "splits a into reference-stub
fragments", each fragment stored as a separate addressable object whose
payload (`data`) is one fragment of the array.  `ChunkedAs store refs parts`
says that the stub list `refs` is a chunking whose fragments are `parts`:
each stub carries a non-empty content id under `referencedId` and the store
maps that id to an object whose `data` is the corresponding fragment. -/
inductive ChunkedAs (store : String → Option JSVal) :
    List JSVal → List (List JSVal) → Prop where
  | nil : ChunkedAs store [] []
  | cons {id : String} {part : List JSVal} {refs : List JSVal}
      {parts : List (List JSVal)} :
      id ≠ "" →
      store id = some (.obj [("data", .arr part)]) →
      ChunkedAs store refs parts →
      ChunkedAs store (.obj [("referencedId", .str id)] :: refs) (part :: parts)

/-- Substring test on character lists: does the second list occur as a
contiguous run of the first? -/
def hasSubstr (pat : List Char) : List Char → Bool
  | [] => pat.isPrefixOf []
  | c :: t => pat.isPrefixOf (c :: t) || hasSubstr pat t

/-- JavaScript `s.indexOf( pat ) !== -1`: substring containment. -/
def jsIncludes (s pat : String) : Bool := hasSubstr pat.data s.data

/-- The identifiers the `ViewerObjectLoader` constructor extracts from the
object URL and passes to the underlying `ObjectLoader`. -/
structure LoaderInit where
  serverUrl : String
  streamId : String
  objectId : String
  deriving DecidableEq

/-- ViewerObjectLoader lines 130-146 (the URL-format validation and
extraction of the constructor; `new URL` itself is the platform's parser and
is represented by its `origin` and `pathname` outputs).  The path is split
on `/`; the check `segments.length < 5 || pathname.indexOf( 'streams' ) === -1
|| pathname.indexOf( 'objects' ) === -1` throws
`Unexpected object url format.` synchronously — no store parameter appears
anywhere in this function, so no network activity can precede the error —
and otherwise `segments[2]` and `segments[4]` become the stream id and the
object id. -/
def viewerLoaderInit (origin pathname : String) : Except String LoaderInit :=
  let segments := jsSplit pathname '/'
  if segments.length < 5 ∨ jsIncludes pathname "streams" = false
      ∨ jsIncludes pathname "objects" = false then
    .error "Unexpected object url format."
  else
    .ok { serverUrl := origin, streamId := segments.getD 2 "",
          objectId := segments.getD 4 "" }

/-- ViewerObjectLoader lines 174-189, the progress-emitting part of the
`load` iteration, after the total has been learned: for each remaining
fragment, `current` is incremented and `current / ( total + 1 )` is emitted.
Fragments are represented by their `totalChildrenCount`. -/
def loadLoop (total : Nat) (current : Nat) : List Nat → List ℚ
  | [] => []
  | _ :: rest =>
    (((current : ℚ) + 1) / ((total : ℚ) + 1)) :: loadLoop total (current + 1) rest

/-- The full sequence of `load-progress` fractions a load session emits for
a given fragment stream: nothing for an empty stream; otherwise the total is
learned from the first fragment's `totalChildrenCount` (line 185) and every
fragment, the first included, produces exactly one event (lines 187-188). -/
def loadEmits : List Nat → List ℚ
  | [] => []
  | f :: rest => loadLoop f 0 (f :: rest)

theorem lookupField_filter_none (k : String) (p : String × JSVal → Bool)
    (hp : ∀ x, p x = true → ¬ x.fst = k) :
    ∀ fs : List (String × JSVal), lookupField (fs.filter p) k = none := by
  intro fs
  induction fs with
  | nil => rfl
  | cons x rest ih =>
    by_cases hx : p x = true
    · rw [List.filter_cons_of_pos hx]
      simpa [lookupField, hp x hx] using ih
    · rw [List.filter_cons_of_neg (by simpa using hx)]
      exact ih

theorem lookupField_none_filter (k : String) (p : String × JSVal → Bool) :
    ∀ fs : List (String × JSVal), lookupField fs k = none →
      lookupField (fs.filter p) k = none := by
  intro fs
  induction fs with
  | nil => intro _; rfl
  | cons x rest ih =>
    intro h
    have hx : ¬ x.fst = k := by
      intro hk
      simp [lookupField, hk] at h
    have hrest : lookupField rest k = none := by
      simpa [lookupField, hx] using h
    by_cases hpx : p x = true
    · rw [List.filter_cons_of_pos hpx]
      simpa [lookupField, hx] using ih hrest
    · rw [List.filter_cons_of_neg (by simpa using hpx)]
      exact ih hrest

theorem hasOwnField_deleteField_self (v : JSVal) (k : String) :
    hasOwnField (deleteField v k) k = false := by
  cases v with
  | obj fs =>
    have h1 := lookupField_filter_none k (fun p => p.fst ≠ k)
      (fun x hx => by simpa using hx) fs
    show (lookupField (fs.filter (fun p => p.fst ≠ k)) k).isSome = false
    rw [h1]
    rfl
  | _ => rfl

theorem hasOwnField_deleteField_mono (v : JSVal) (k k' : String)
    (h : hasOwnField v k = false) : hasOwnField (deleteField v k') k = false := by
  cases v with
  | obj fs =>
    have hnone : lookupField fs k = none := by
      cases hl : lookupField fs k with
      | none => rfl
      | some u => simp [hasOwnField, hl] at h
    have h1 := lookupField_none_filter k (fun p => p.fst ≠ k') fs hnone
    show (lookupField (fs.filter (fun p => p.fst ≠ k')) k).isSome = false
    rw [h1]
    rfl
  | _ => simpa [deleteField] using h

theorem hasOwnField_deleteFields_mono (ks : List String) :
    ∀ (v : JSVal) (k : String), hasOwnField v k = false →
      hasOwnField (deleteFields v ks) k = false := by
  induction ks with
  | nil => intro v k h; simpa [deleteFields] using h
  | cons k' rest ih =>
    intro v k h
    have : deleteFields v (k' :: rest) = deleteFields (deleteField v k') rest := rfl
    rw [this]
    exact ih (deleteField v k') k (hasOwnField_deleteField_mono v k k' h)

theorem hasOwnField_deleteFields_of_mem (ks : List String) :
    ∀ (v : JSVal) (k : String), k ∈ ks → hasOwnField (deleteFields v ks) k = false := by
  induction ks with
  | nil => intro v k h; cases h
  | cons k' rest ih =>
    intro v k h
    have hstep : deleteFields v (k' :: rest) = deleteFields (deleteField v k') rest := rfl
    rw [hstep]
    rcases List.mem_cons.mp h with hk | hk
    · subst hk
      exact hasOwnField_deleteFields_mono rest (deleteField v k) k
        (hasOwnField_deleteField_self v k)
    · exact ih (deleteField v k') k hk

theorem mesh_ok_inv {store : String → Option JSVal} {cf : JSVal → ℚ}
    {objv : JSVal} {w : ObjectWrapper}
    (h : MeshToBufferGeometry store cf objv = .ok (some w)) :
    truthy objv = true ∧
    ∃ vtx faces idx pos,
      dechunk store (safeField objv "vertices") = .ok vtx ∧
      dechunk store (safeField objv "faces") = .ok faces ∧
      decodeFacesVal faces = .ok idx ∧
      scalePositions (cf (safeField objv "units")) vtx = .ok pos ∧
      w = ⟨⟨idx, pos⟩, deleteField (deleteField objv "vertices") "faces"⟩ := by
  unfold MeshToBufferGeometry at h
  by_cases ht : truthy objv = true
  · rw [if_neg (not_not_intro ht)] at h
    refine ⟨ht, ?_⟩
    cases hv : dechunk store (safeField objv "vertices") with
    | error e => simp [hv] at h
    | ok vtx =>
      cases hf : dechunk store (safeField objv "faces") with
      | error e => simp [hv, hf] at h
      | ok faces =>
        cases hd : decodeFacesVal faces with
        | error e => simp [hv, hf, hd] at h
        | ok idx =>
          cases hs : scalePositions (cf (safeField objv "units")) vtx with
          | error e => simp [hv, hf, hd, hs] at h
          | ok pos =>
            simp only [hv, hf, hd, hs, Except.ok.injEq, Option.some.injEq] at h
            exact ⟨vtx, faces, idx, pos, rfl, rfl, hd, hs, h.symm⟩
  · rw [if_pos ht] at h
    simp at h

theorem brep_ok_inv {store : String → Option JSVal} {cf : JSVal → ℚ}
    {objv : JSVal} {w : ObjectWrapper}
    (h : BrepToBufferGeometry store cf objv = .ok (some w)) :
    truthy objv = true ∧ w.meta = deleteFields objv brepStripFields := by
  unfold BrepToBufferGeometry at h
  by_cases ht : truthy objv = true
  · rw [if_neg (not_not_intro ht)] at h
    refine ⟨ht, ?_⟩
    cases hr : resolveReference store
        (if truthy (safeField objv "displayValue") = true then safeField objv "displayValue"
         else safeField objv "displayMesh") with
    | error e => simp [hr] at h
    | ok resolved =>
      cases hm : MeshToBufferGeometry store cf resolved with
      | error e => simp [hr, hm] at h
      | ok mres =>
        cases mres with
        | none => simp [hr, hm] at h
        | some mw =>
          simp only [hr, hm, Except.ok.injEq, Option.some.injEq] at h
          rw [← h]
  · rw [if_pos ht] at h
    simp at h

/-- C1: the face decoder reads a topology flag at the cursor; flag `0`
emits the next three values as one triangle and advances the cursor past 4
values; flag `1` emits the next four values `v0,v1,v2,v3` as the two
triangles `(v0,v1,v2)` and `(v0,v2,v3)` and advances past 5 values; any
other flag throws the fatal decode error, which aborts the whole
`MeshToBufferGeometry` call (no indices are guessed).  Triangles are
consecutive triples of the emitted index buffer, exactly as pushed by
Converter.js lines 149-153.  The buffer `[1, 0,1,2,3]` decodes to exactly
the triangles `(0,1,2)` and `(0,2,3)`, and `[0, 0,1,2]` to the single
triangle `(0,1,2)`. -/
theorem faceDecode_spec :
    (∀ (a b c : JSVal) (rest : List JSVal),
        decodeFacesGo (.num 0 :: a :: b :: c :: rest)
          = (decodeFacesGo rest).map (fun t => a :: b :: c :: t))
  ∧ (∀ (a b c d : JSVal) (rest : List JSVal),
        decodeFacesGo (.num 1 :: a :: b :: c :: d :: rest)
          = (decodeFacesGo rest).map (fun t => a :: b :: c :: a :: c :: d :: t))
  ∧ (∀ (f : JSVal) (rest : List JSVal),
        jsStrictEqNum f 0 = false → jsStrictEqNum f 1 = false →
        decodeFacesGo (f :: rest)
          = .error (.jsError
              ("Mesh type not supported. Face topology indicator: " ++ jsDisplay f)))
  ∧ (∀ (store : String → Option JSVal) (cf : JSVal → ℚ) (objv vtx faces : JSVal) (e : JSErr),
        truthy objv = true →
        dechunk store (safeField objv "vertices") = .ok vtx →
        dechunk store (safeField objv "faces") = .ok faces →
        decodeFacesVal faces = .error e →
        MeshToBufferGeometry store cf objv = .error e)
  ∧ decodeFacesVal (.arr [.num 1, .num 0, .num 1, .num 2, .num 3])
      = .ok [.num 0, .num 1, .num 2, .num 0, .num 2, .num 3]
  ∧ decodeFacesVal (.arr [.num 0, .num 0, .num 1, .num 2])
      = .ok [.num 0, .num 1, .num 2] := by
  refine ⟨?_, ?_, ?_, ?_, rfl, rfl⟩
  · intro a b c rest
    rw [decodeFacesGo.eq_def]
    simp [jsStrictEqNum]
  · intro a b c d rest
    rw [decodeFacesGo.eq_def]
    simp [jsStrictEqNum]
  · intro f rest h0 h1
    rw [decodeFacesGo.eq_def]
    simp [h0, h1]
  · intro store cf objv vtx faces e ht hv hf hd
    unfold MeshToBufferGeometry
    simp [ht, hv, hf, hd]

theorem faceDecode_spec_witness :
    decodeFacesGo [.num 2]
      = .error (.jsError
          ("Mesh type not supported. Face topology indicator: " ++ jsDisplay (.num 2)))
  ∧ decodeFacesGo (.num 0 :: .num 7 :: .num 8 :: .num 9 :: [])
      = (decodeFacesGo []).map (fun t => .num 7 :: .num 8 :: .num 9 :: t) :=
  ⟨faceDecode_spec.2.2.1 (.num 2) [] (by rfl) (by rfl),
   faceDecode_spec.1 (.num 7) (.num 8) (.num 9) []⟩

theorem dechunkLoop_chunkedAs {store : String → Option JSVal}
    {refs : List JSVal} {parts : List (List JSVal)}
    (h : ChunkedAs store refs parts) :
    dechunkLoop store refs = .ok parts.flatten := by
  induction h with
  | nil => rfl
  | cons hid hstore htail ih =>
    simp [dechunkLoop, getField, safeField, lookupField, getObject, hstore,
          spreadItems, ih]

/-- C2 counterexample: `dechunk` applied to the empty array does not return
it unchanged — `arr[0]` is `undefined`, so the `referencedId` read of
Converter.js line 72 throws a `TypeError` (and this is independent of the
store). -/
theorem dechunk_empty_counterexample :
    dechunk (fun _ => none) (.arr [])
      = .error (.typeError "Cannot read properties of undefined (reading referencedId)") :=
  rfl

/-- C2 (amended): for a NON-EMPTY array whose first element's
`referencedId` read succeeds and yields a falsy value, `dechunk` returns
the array unchanged, for every store (hence with no store access); and for
every non-empty array produced by chunking (`ChunkedAs`, the spec-modelled
`chunk`: reference stubs whose ids the store maps to objects carrying one
fragment each as `data`), `dechunk` resolves each stub in order and returns
the exact concatenation of the fragments, i.e. `dechunk (chunk a) = a`.
The empty-array half of the original claim is refuted by
`dechunk_empty_counterexample`: the code throws a `TypeError` there instead
of returning the array. -/
theorem dechunk_spec_amended :
    (∀ (store : String → Option JSVal) (first : JSVal) (rest : List JSVal) (rid : JSVal),
        getField first "referencedId" = .ok rid → truthy rid = false →
        dechunk store (.arr (first :: rest)) = .ok (.arr (first :: rest)))
  ∧ (∀ (store : String → Option JSVal) (refs : List JSVal)
        (parts : List (List JSVal)) (a : List JSVal),
        ChunkedAs store refs parts → parts.flatten = a → a ≠ [] →
        dechunk store (.arr refs) = .ok (.arr a)) := by
  constructor
  · intro store first rest rid hget hrid
    simp [dechunk, jsIndex, hget, hrid]
  · intro store refs parts a hchunk hflat hne
    cases hchunk with
    | nil => exact absurd hflat.symm hne
    | @cons id part refs' parts' hid hstore htail =>
      have hloop := dechunkLoop_chunkedAs (ChunkedAs.cons hid hstore htail)
      simp only [← hflat]
      simp [dechunk, jsIndex, getField, safeField, lookupField, truthy, hid, hloop]

theorem dechunk_spec_amended_witness :
    dechunk (fun _ => none) (.arr [.num 5, .num 6]) = .ok (.arr [.num 5, .num 6])
  ∧ dechunk
      (fun s => if s = "c0" then some (.obj [("data", .arr [.num 1])])
                else if s = "c1" then some (.obj [("data", .arr [.num 2, .num 3])])
                else none)
      (.arr [.obj [("referencedId", .str "c0")], .obj [("referencedId", .str "c1")]])
      = .ok (.arr [.num 1, .num 2, .num 3]) :=
  ⟨dechunk_spec_amended.1 (fun _ => none) (.num 5) [.num 6] .undefined rfl rfl,
   dechunk_spec_amended.2 _ _ [[.num 1], [.num 2, .num 3]] _
     (ChunkedAs.cons (by decide) rfl (ChunkedAs.cons (by decide) rfl ChunkedAs.nil))
     rfl (List.cons_ne_nil _ _)⟩

theorem tac_succ (store : String → Option JSVal) (cf : JSVal → ℚ)
    (fuel : Nat) (v : JSVal) :
    traverseAndConvert store cf (fuel + 1) v
      = tacStep store cf (traverseAndConvert store cf fuel) v := rfl

/-- C3: for every structured node (a plain object, not a reference stub)
whose computed type tag has no registered converter, `traverseAndConvert`
invokes no conversion callback on the node itself — every callback
invocation of the call comes from the recursions it spawns into the fields
of the node's payload (`obj.data`), one per field, and the call itself
completes cleanly; for every such node whose tag has a registered
converter, the converter is invoked on `obj.data || obj`, its result is the
one value passed to the callback, and the traversal does not descend into
the node's fields. -/
theorem traverse_dispatch_spec :
    (∀ (store : String → Option JSVal) (cf : JSVal → ℚ) (fuel : Nat)
        (fs : List (String × JSVal)) (t : String),
        truthy (safeField (.obj fs) "referencedId") = false →
        getSpeckleType (.obj fs) = .ok t →
        hasConverter t = false →
        traverseAndConvert store cf (fuel + 1) (.obj fs)
          = (.ok (), ((forInValues (safeField (.obj fs) "data")).map
              (fun e => (traverseAndConvert store cf fuel e).snd)).flatten))
  ∧ (∀ (store : String → Option JSVal) (cf : JSVal → ℚ) (fuel : Nat)
        (fs : List (String × JSVal)) (t : String) (r : Option ObjectWrapper),
        truthy (safeField (.obj fs) "referencedId") = false →
        getSpeckleType (.obj fs) = .ok t →
        hasConverter t = true →
        converterFor store cf t (dataOrSelf (.obj fs)) = .ok r →
        traverseAndConvert store cf (fuel + 1) (.obj fs) = (.ok (), [r])) := by
  constructor
  · intro store cf fuel fs t h1 h2 h3
    rw [tac_succ]
    unfold tacStep
    simp [jsTypeof, resolveReference, getField, h1, h2, h3]
  · intro store cf fuel fs t r h1 h2 h3 h4
    rw [tac_succ]
    unfold tacStep
    simp [jsTypeof, resolveReference, getField, h1, h2, h3, h4]

theorem traverse_dispatch_spec_witness :
    traverseAndConvert (fun _ => none) (fun _ => 1) 1
        (.obj [("data", .obj [("a", .num 4), ("b", .str "x")])])
      = (.ok (), ((forInValues (safeField
            (.obj [("data", .obj [("a", .num 4), ("b", .str "x")])]) "data")).map
          (fun e => (traverseAndConvert (fun _ => none) (fun _ => 1) 0 e).snd)).flatten)
  ∧ traverseAndConvert (fun _ => none) (fun _ => 1) 1
        (.obj [("speckle_type", .str "Mesh"),
               ("vertices", .arr [.num 0, .num 0, .num 0]),
               ("faces", .arr [.num 0, .num 0, .num 1, .num 2])])
      = (.ok (), [some ⟨⟨[.num 0, .num 1, .num 2], .arr [.num 0, .num 0, .num 0]⟩,
          .obj [("speckle_type", .str "Mesh")]⟩]) :=
  ⟨traverse_dispatch_spec.1 (fun _ => none) (fun _ => 1) 0
      [("data", .obj [("a", .num 4), ("b", .str "x")])] "Base" rfl rfl rfl,
   traverse_dispatch_spec.2 (fun _ => none) (fun _ => 1) 0
      [("speckle_type", .str "Mesh"),
       ("vertices", .arr [.num 0, .num 0, .num 0]),
       ("faces", .arr [.num 0, .num 0, .num 1, .num 2])] "Mesh" _ rfl rfl rfl rfl⟩

/-- C5 counterexample: a Brep object that carries neither `displayValue`
nor `displayMesh` does NOT make the converter yield nothing quietly —
`obj.displayValue || obj.displayMesh` is `undefined`, and
`resolveReference( undefined )` throws a `TypeError` reading
`referencedId` (Converter.js lines 88/120). -/
theorem brep_missing_display_counterexample :
    BrepToBufferGeometry (fun _ => none) (fun _ => 1)
        (.obj [("speckle_type", .str "Brep")])
      = .error (.typeError "Cannot read properties of undefined (reading referencedId)") :=
  rfl

/-- C5 (amended): the quiet yield-nothing path of `BrepToBufferGeometry`
exists only for a falsy input (`if ( !obj ) return`), in which case no
error is raised and the result is `undefined`; a structured object that
carries neither a `displayValue` nor a `displayMesh` field instead aborts
with a `TypeError` when `resolveReference` reads `referencedId` off
`undefined`, so the conversion produces no wrapper; and on such an abort
`traverseAndConvert` rejects without invoking the conversion callback for
that node. -/
theorem brep_nodisplay_spec_amended :
    (∀ (store : String → Option JSVal) (cf : JSVal → ℚ) (v : JSVal),
        truthy v = false → BrepToBufferGeometry store cf v = .ok none)
  ∧ (∀ (store : String → Option JSVal) (cf : JSVal → ℚ)
        (fs : List (String × JSVal)),
        safeField (.obj fs) "displayValue" = .undefined →
        safeField (.obj fs) "displayMesh" = .undefined →
        BrepToBufferGeometry store cf (.obj fs)
          = .error (.typeError "Cannot read properties of undefined (reading referencedId)"))
  ∧ (∀ (store : String → Option JSVal) (cf : JSVal → ℚ) (fuel : Nat)
        (fs : List (String × JSVal)) (e : JSErr),
        truthy (safeField (.obj fs) "referencedId") = false →
        getSpeckleType (.obj fs) = .ok "Brep" →
        BrepToBufferGeometry store cf (dataOrSelf (.obj fs)) = .error e →
        traverseAndConvert store cf (fuel + 1) (.obj fs) = (.error e, [])) := by
  refine ⟨?_, ?_, ?_⟩
  · intro store cf v h
    unfold BrepToBufferGeometry
    rw [if_pos (by simp [h])]
  · intro store cf fs h1 h2
    unfold BrepToBufferGeometry
    rw [if_neg (by simp [truthy])]
    rw [h1, h2]
    simp [truthy, resolveReference, getField]
  · intro store cf fuel fs e h1 h2 h3
    rw [tac_succ]
    unfold tacStep
    simp [jsTypeof, resolveReference, getField, h1, h2, hasConverter, converterFor, h3]

theorem brep_nodisplay_spec_amended_witness :
    BrepToBufferGeometry (fun _ => none) (fun _ => 1) .undefined = .ok none
  ∧ BrepToBufferGeometry (fun _ => none) (fun _ => 1)
        (.obj [("speckle_type", .str "Objects.Geometry.Brep"), ("area", .num 3)])
      = .error (.typeError "Cannot read properties of undefined (reading referencedId)")
  ∧ traverseAndConvert (fun _ => none) (fun _ => 1) 1
        (.obj [("speckle_type", .str "Brep")])
      = (.error (.typeError "Cannot read properties of undefined (reading referencedId)"), []) :=
  ⟨brep_nodisplay_spec_amended.1 (fun _ => none) (fun _ => 1) .undefined rfl,
   brep_nodisplay_spec_amended.2.1 (fun _ => none) (fun _ => 1)
     [("speckle_type", .str "Objects.Geometry.Brep"), ("area", .num 3)] rfl rfl,
   brep_nodisplay_spec_amended.2.2 (fun _ => none) (fun _ => 1) 0
     [("speckle_type", .str "Brep")] _ rfl rfl rfl⟩

/-- C7 counterexample: `traverseAndConvert` applied to `null` does not
treat it as a leaf — `typeof null === "object"`, so the guard of
Converter.js line 27 does not return, and line 30 throws a `TypeError`
reading `referencedId` off `null`. -/
theorem traverse_null_counterexample :
    traverseAndConvert (fun _ => none) (fun _ => 1) 1 .null
      = (.error (.typeError "Cannot read properties of null (reading referencedId)"), []) :=
  rfl

/-- C7 (amended): every primitive value other than `null` — numbers (NaN
included), strings, booleans and `undefined`, i.e. exactly the values with
`typeof v !== "object"` — is a leaf: `traverseAndConvert` stops at once,
touching no store (the result is the same for every store), invoking no
converter and no callback, and raising no error.  `null` is excluded: it
has `typeof "object"` and raises a `TypeError`
(`traverse_null_counterexample`). -/
theorem primitive_leaf_spec_amended :
    ∀ (store : String → Option JSVal) (cf : JSVal → ℚ) (fuel : Nat) (v : JSVal),
      jsTypeof v ≠ "object" →
      traverseAndConvert store cf (fuel + 1) v = (.ok (), []) := by
  intro store cf fuel v h
  rw [tac_succ]
  unfold tacStep
  rw [if_pos h]

theorem primitive_leaf_spec_amended_witness :
    traverseAndConvert (fun _ => none) (fun _ => 1) 1 (.num 3) = (.ok (), []) :=
  primitive_leaf_spec_amended (fun _ => none) (fun _ => 1) 0 (.num 3) (by decide)

theorem loadLoop_length (total : Nat) :
    ∀ (l : List Nat) (c : Nat), (loadLoop total c l).length = l.length := by
  intro l
  induction l with
  | nil => intro c; rfl
  | cons x rest ih => intro c; simp [loadLoop, ih]

theorem loadLoop_getD (total : Nat) :
    ∀ (l : List Nat) (c i : Nat), i < l.length →
      (loadLoop total c l).getD i 0 = ((c : ℚ) + (i : ℚ) + 1) / ((total : ℚ) + 1) := by
  intro l
  induction l with
  | nil => intro c i h; simp at h
  | cons x rest ih =>
    intro c i h
    cases i with
    | zero => simp [loadLoop]
    | succ n =>
      have hn : n < rest.length := by simpa using h
      have := ih (c + 1) n hn
      simp only [loadLoop, List.getD_cons_succ, this]
      push_cast
      ring

/-- C4: in every load session the total is learned from the first received
fragment's `totalChildrenCount`; every received fragment, the first
included, causes exactly one `load-progress` event whose fraction is
(fragments seen) / (total + 1); the emitted fraction sequence is
non-decreasing; and the fraction equals exactly 1 once `total + 1`
fragments have been observed (the event at zero-based index `total`). -/
theorem load_progress_spec :
    (∀ frags : List Nat, (loadEmits frags).length = frags.length)
  ∧ (∀ (f : Nat) (rest : List Nat) (i : Nat), i < (f :: rest : List Nat).length →
      (loadEmits (f :: rest)).getD i 0 = ((i : ℚ) + 1) / ((f : ℚ) + 1))
  ∧ (∀ (f : Nat) (rest : List Nat) (i j : Nat), i ≤ j →
      j < (f :: rest : List Nat).length →
      (loadEmits (f :: rest)).getD i 0 ≤ (loadEmits (f :: rest)).getD j 0)
  ∧ (∀ (f : Nat) (rest : List Nat), f < (f :: rest : List Nat).length →
      (loadEmits (f :: rest)).getD f 0 = 1) := by
  have hgetD : ∀ (f : Nat) (rest : List Nat) (i : Nat),
      i < (f :: rest : List Nat).length →
      (loadEmits (f :: rest)).getD i 0 = ((i : ℚ) + 1) / ((f : ℚ) + 1) := by
    intro f rest i h
    have := loadLoop_getD f (f :: rest) 0 i (by simpa using h)
    simpa [loadEmits] using this
  refine ⟨?_, hgetD, ?_, ?_⟩
  · intro frags
    cases frags with
    | nil => rfl
    | cons f rest => simp [loadEmits, loadLoop_length]
  · intro f rest i j hij hj
    have hi : i < (f :: rest : List Nat).length := lt_of_le_of_lt hij hj
    rw [hgetD f rest i hi, hgetD f rest j hj]
    have hle : (i : ℚ) + 1 ≤ (j : ℚ) + 1 := by
      have : (i : ℚ) ≤ (j : ℚ) := by exact_mod_cast hij
      linarith
    have hpos : (0 : ℚ) < (f : ℚ) + 1 := by positivity
    exact (div_le_div_iff_of_pos_right hpos).mpr hle
  · intro f rest h
    rw [hgetD f rest f h]
    exact div_self (by positivity)

theorem load_progress_spec_witness :
    (loadEmits [2, 2, 2]).length = ([2, 2, 2] : List Nat).length
  ∧ (loadEmits [2, 2, 2]).getD 0 0 = ((0 : ℚ) + 1) / ((2 : ℚ) + 1)
  ∧ (loadEmits [2, 2, 2]).getD 0 0 ≤ (loadEmits [2, 2, 2]).getD 2 0
  ∧ (loadEmits [2, 2, 2]).getD 2 0 = 1 :=
  ⟨load_progress_spec.1 [2, 2, 2],
   by
     have := load_progress_spec.2.1 2 [2, 2] 0 (by decide)
     simpa using this,
   load_progress_spec.2.2.1 2 [2, 2] 0 2 (by decide) (by decide),
   load_progress_spec.2.2.2 2 [2, 2] (by decide)⟩

/-- C6: successful conversions never retain the heavy geometry-defining
source fields in the returned wrapper's metadata: after a Mesh conversion
the metadata carries neither `vertices` nor `faces`, and after a Brep
conversion it carries none of `displayMesh`, `displayValue`, `Edges`,
`Faces`, `Loops`, `Trims`, `Curve2D`, `Curve3D`, `Surfaces`, `Vertices`. -/
theorem conversion_metadata_stripped :
    (∀ (store : String → Option JSVal) (cf : JSVal → ℚ) (objv : JSVal)
        (w : ObjectWrapper),
        MeshToBufferGeometry store cf objv = .ok (some w) →
        hasOwnField w.meta "vertices" = false ∧ hasOwnField w.meta "faces" = false)
  ∧ (∀ (store : String → Option JSVal) (cf : JSVal → ℚ) (objv : JSVal)
        (w : ObjectWrapper),
        BrepToBufferGeometry store cf objv = .ok (some w) →
        ∀ k ∈ brepStripFields, hasOwnField w.meta k = false) := by
  constructor
  · intro store cf objv w h
    obtain ⟨ht, vtx, faces, idx, pos, hv, hf, hd, hs, hw⟩ := mesh_ok_inv h
    rw [hw]
    constructor
    · exact hasOwnField_deleteField_mono _ "vertices" "faces"
        (hasOwnField_deleteField_self objv "vertices")
    · exact hasOwnField_deleteField_self _ "faces"
  · intro store cf objv w h k hk
    obtain ⟨ht, hmeta⟩ := brep_ok_inv h
    rw [hmeta]
    exact hasOwnField_deleteFields_of_mem brepStripFields objv k hk

theorem conversion_metadata_stripped_witness :
    (hasOwnField (JSVal.obj [("speckle_type", .str "Mesh")]) "vertices" = false
      ∧ hasOwnField (JSVal.obj [("speckle_type", .str "Mesh")]) "faces" = false)
  ∧ hasOwnField (JSVal.obj [("speckle_type", .str "Brep")]) "Edges" = false :=
  ⟨conversion_metadata_stripped.1 (fun _ => none) (fun _ => 1)
      (.obj [("speckle_type", .str "Mesh"),
             ("vertices", .arr [.num 0, .num 0, .num 0]),
             ("faces", .arr [.num 0, .num 0, .num 1, .num 2])])
      ⟨⟨[.num 0, .num 1, .num 2], .arr [.num 0, .num 0, .num 0]⟩,
        .obj [("speckle_type", .str "Mesh")]⟩ rfl,
   conversion_metadata_stripped.2 (fun _ => none) (fun _ => 1)
      (.obj [("speckle_type", .str "Brep"),
             ("displayValue", .obj [("speckle_type", .str "Mesh"),
               ("vertices", .arr [.num 0, .num 0, .num 0]),
               ("faces", .arr [.num 0, .num 0, .num 1, .num 2])]),
             ("Edges", .num 7)])
      ⟨⟨[.num 0, .num 1, .num 2], .arr [.num 0, .num 0, .num 0]⟩,
        .obj [("speckle_type", .str "Brep")]⟩ rfl "Edges" (by decide)⟩

/-- C8 counterexample: the constructor's check is a SUBSTRING check
(`pathname.indexOf( 'streams' )`), not a path-segment check: the path
`/mystreams/x/objects/y` has five components and contains `streams` only
inside the segment `mystreams` — `streams` is not one of its path segments —
yet construction does not raise and happily extracts `x` and `y`. -/
theorem url_segments_counterexample :
    viewerLoaderInit "https://example.com" "/mystreams/x/objects/y"
        = .ok ⟨"https://example.com", "x", "y"⟩
  ∧ "streams" ∉ jsSplit "/mystreams/x/objects/y" '/' :=
  ⟨rfl, by decide⟩

/-- C8 (amended): construction raises the URL-format error, synchronously
and with no store interaction (the function consults nothing but the URL),
exactly when the path splits into fewer than 5 `/`-separated components or
does not contain `"streams"` or does not contain `"objects"` as a
SUBSTRING of the whole path; for every URL passing that check, construction
extracts the store origin, path component 2 as the stream id and path
component 4 as the object id, and does not raise. -/
theorem url_parse_spec_amended :
    ∀ origin pathname : String,
      (((jsSplit pathname '/').length < 5 ∨ jsIncludes pathname "streams" = false
          ∨ jsIncludes pathname "objects" = false) →
        viewerLoaderInit origin pathname = .error "Unexpected object url format.")
    ∧ (¬ ((jsSplit pathname '/').length < 5 ∨ jsIncludes pathname "streams" = false
          ∨ jsIncludes pathname "objects" = false) →
        viewerLoaderInit origin pathname
          = .ok ⟨origin, (jsSplit pathname '/').getD 2 "",
                 (jsSplit pathname '/').getD 4 ""⟩) := by
  intro origin pathname
  have hdef : viewerLoaderInit origin pathname
      = if ((jsSplit pathname '/').length < 5 ∨ jsIncludes pathname "streams" = false
            ∨ jsIncludes pathname "objects" = false) then
          .error "Unexpected object url format."
        else
          .ok ⟨origin, (jsSplit pathname '/').getD 2 "",
               (jsSplit pathname '/').getD 4 ""⟩ := rfl
  constructor
  · intro h
    rw [hdef, if_pos h]
  · intro h
    rw [hdef, if_neg h]

theorem url_parse_spec_amended_witness :
    viewerLoaderInit "https://staging.speckle.dev"
        "/streams/a75ab4f10f/objects/f33645dc9a702de8af0af16bd5f655b0"
      = .ok ⟨"https://staging.speckle.dev",
             (jsSplit "/streams/a75ab4f10f/objects/f33645dc9a702de8af0af16bd5f655b0" '/').getD 2 "",
             (jsSplit "/streams/a75ab4f10f/objects/f33645dc9a702de8af0af16bd5f655b0" '/').getD 4 ""⟩
  ∧ viewerLoaderInit "https://staging.speckle.dev" "/nothing"
      = .error "Unexpected object url format." :=
  ⟨(url_parse_spec_amended "https://staging.speckle.dev"
      "/streams/a75ab4f10f/objects/f33645dc9a702de8af0af16bd5f655b0").2 (by decide),
   (url_parse_spec_amended "https://staging.speckle.dev" "/nothing").1 (by decide)⟩

/-- C9: when the declared unit's conversion factor is exactly 1, the value
stored as the position attribute is the dechunked vertices value itself —
the per-vertex multiply of Converter.js line 161 is skipped entirely, so
the stored values are identical (bit for bit) to the input; for any other
factor, every stored position entry is the corresponding input entry
multiplied by the factor. -/
theorem unit_factor_positions_spec :
    ∀ (store : String → Option JSVal) (cf : JSVal → ℚ) (objv : JSVal)
      (w : ObjectWrapper) (vtx : JSVal),
      MeshToBufferGeometry store cf objv = .ok (some w) →
      dechunk store (safeField objv "vertices") = .ok vtx →
      (cf (safeField objv "units") = 1 → w.bufferGeometry.position = vtx)
      ∧ (cf (safeField objv "units") ≠ 1 →
          ∃ l, vtx = .arr l ∧
            w.bufferGeometry.position
              = .arr (l.map (fun x => jsMulNum x (cf (safeField objv "units"))))) := by
  intro store cf objv w vtx hm hv
  obtain ⟨ht, vtx', faces, idx, pos, hv', hf, hd, hs, hw⟩ := mesh_ok_inv hm
  rw [hv] at hv'
  obtain rfl : vtx = vtx' := by
    cases hv'
    rfl
  constructor
  · intro h1
    rw [h1] at hs
    unfold scalePositions at hs
    rw [if_pos rfl] at hs
    cases hs
    rw [hw]
  · intro h1
    unfold scalePositions at hs
    rw [if_neg h1] at hs
    cases vtx with
    | arr l =>
      refine ⟨l, rfl, ?_⟩
      rw [hw]
      cases hs
      rfl
    | num q => simp at hs
    | nan => simp at hs
    | str s => simp at hs
    | bool b => simp at hs
    | null => simp at hs
    | undefined => simp at hs
    | obj fs => simp at hs

theorem unit_factor_positions_spec_witness :
    (ObjectWrapper.mk ⟨[.num 0, .num 1, .num 2], .arr [.num 1, .num 2, .num 3]⟩
        (.obj [("speckle_type", .str "Mesh")])).bufferGeometry.position
      = .arr [.num 1, .num 2, .num 3] :=
  (unit_factor_positions_spec (fun _ => none) (fun _ => 1)
    (.obj [("speckle_type", .str "Mesh"),
        ("vertices", .arr [.num 1, .num 2, .num 3]),
        ("faces", .arr [.num 0, .num 0, .num 1, .num 2])])
    ⟨⟨[.num 0, .num 1, .num 2], .arr [.num 1, .num 2, .num 3]⟩,
        .obj [("speckle_type", .str "Mesh")]⟩
    (.arr [.num 1, .num 2, .num 3]) rfl rfl).1 rfl

/-- C10: conversion mutates its input node in place.  With the argument's
reference semantics made explicit (`meshConvertAt` / `brepConvertAt`), a
successful Mesh conversion of the object at address `a` leaves the heap
with the very object at `a` stripped of its `vertices` and `faces` fields,
returns address `a` itself as the wrapper's metadata, and touches no other
address — so every other holder of a reference to that node observes the
deletions; a successful Brep conversion does the same with all ten
boundary-representation fields. -/
theorem inplace_mutation_spec :
    (∀ (store : String → Option JSVal) (cf : JSVal → ℚ) (H : Nat → JSVal)
        (a : Nat) (hw : HeapWrapper) (H' : Nat → JSVal),
        meshConvertAt store cf H a = .ok (some hw, H') →
        hw.metaAddr = a
        ∧ H' a = deleteField (deleteField (H a) "vertices") "faces"
        ∧ ∀ b, b ≠ a → H' b = H b)
  ∧ (∀ (store : String → Option JSVal) (cf : JSVal → ℚ) (H : Nat → JSVal)
        (a : Nat) (hw : HeapWrapper) (H' : Nat → JSVal),
        brepConvertAt store cf H a = .ok (some hw, H') →
        hw.metaAddr = a
        ∧ H' a = deleteFields (H a) brepStripFields
        ∧ ∀ b, b ≠ a → H' b = H b) := by
  constructor
  · intro store cf H a hw H' h
    unfold meshConvertAt at h
    cases hm : MeshToBufferGeometry store cf (H a) with
    | error e => simp [hm] at h
    | ok mres =>
      cases mres with
      | none => simp [hm] at h
      | some w =>
        simp only [hm, Except.ok.injEq, Prod.mk.injEq, Option.some.injEq] at h
        obtain ⟨h1, h2⟩ := h
        obtain ⟨ht, vtx, faces, idx, pos, hv, hf, hd, hs, hww⟩ := mesh_ok_inv hm
        refine ⟨by rw [← h1], ?_, ?_⟩
        · rw [← h2]
          simp [hww]
        · intro b hb
          rw [← h2]
          simp [hb]
  · intro store cf H a hw H' h
    unfold brepConvertAt at h
    cases hm : BrepToBufferGeometry store cf (H a) with
    | error e => simp [hm] at h
    | ok mres =>
      cases mres with
      | none => simp [hm] at h
      | some w =>
        simp only [hm, Except.ok.injEq, Prod.mk.injEq, Option.some.injEq] at h
        obtain ⟨h1, h2⟩ := h
        obtain ⟨ht, hmeta⟩ := brep_ok_inv hm
        refine ⟨by rw [← h1], ?_, ?_⟩
        · rw [← h2]
          simp [hmeta]
        · intro b hb
          rw [← h2]
          simp [hb]

theorem inplace_mutation_spec_witness :
    (HeapWrapper.mk ⟨[.num 0, .num 1, .num 2], .arr [.num 0, .num 0, .num 0]⟩ 0).metaAddr = 0
  ∧ ((fun b => if b = 0 then JSVal.obj [("speckle_type", .str "Mesh")]
        else JSVal.obj [("speckle_type", .str "Mesh"),
          ("vertices", .arr [.num 0, .num 0, .num 0]),
          ("faces", .arr [.num 0, .num 0, .num 1, .num 2])]) : Nat → JSVal) 0
      = deleteField (deleteField (JSVal.obj [("speckle_type", .str "Mesh"),
          ("vertices", .arr [.num 0, .num 0, .num 0]),
          ("faces", .arr [.num 0, .num 0, .num 1, .num 2])]) "vertices") "faces" := by
  have h := inplace_mutation_spec.1 (fun _ => none) (fun _ => 1)
    (fun _ => JSVal.obj [("speckle_type", .str "Mesh"),
        ("vertices", .arr [.num 0, .num 0, .num 0]),
        ("faces", .arr [.num 0, .num 0, .num 1, .num 2])]) 0
    ⟨⟨[.num 0, .num 1, .num 2], .arr [.num 0, .num 0, .num 0]⟩, 0⟩
    (fun b => if b = 0 then JSVal.obj [("speckle_type", .str "Mesh")]
      else JSVal.obj [("speckle_type", .str "Mesh"),
        ("vertices", .arr [.num 0, .num 0, .num 0]),
        ("faces", .arr [.num 0, .num 0, .num 1, .num 2])]) rfl
  exact ⟨h.1, h.2.1⟩

end Speckle
